import Mathlib

/-!
Shallow embedding of the `reports` Django app (Campfire-Connections/reports)
and proofs of the specification claims about it.

Conventions of the embedding:
* Python strings are Lean `String`s; Python bytes payloads are modelled as the
  `String` they decode to (all payloads here are UTF-8 text).
* Python `None` is `Option.none` (or an explicit `null`/`nondict` constructor).
* Database objects (factions, facilities, organizations, users) are identified
  by their primary-key `Nat` id; Django guarantees primary keys are non-zero,
  but the embedding keeps the truthiness tests of the code explicit.
* Scalar cell values that flow through report rows (they originate from a
  JSON-decoded filter payload) are modelled by `Val`: strings, integers and
  `None`, which is what the unit tests and views exercise.
-/

namespace Reports

/-- Scalar values appearing in report rows (JSON-derived). -/
inductive Val
  | str (s : String)
  | int (n : Int)
  | null
deriving DecidableEq, Repr

/-- Rendering of a `Val` by the Python `csv` writer: `None` is written as the
empty string, other values via `str(...)`. -/
def Val.csvStr : Val → String
  | .str s => s
  | .int n => toString n
  | .null => ""

/-- Rendering of a `Val` inside a Python f-string (`f"{key}={value}"`):
`None` renders as the literal `None`. -/
def Val.pyStr : Val → String
  | .str s => s
  | .int n => toString n
  | .null => "None"

/-- One report row: an insertion-ordered mapping from column key to value,
like a Python `dict`. -/
def Row : Type := List (String × Val)
deriving DecidableEq, Repr

/-- Model of the Python `str.lower()` method on the ASCII strings involved here (format tokens,
slugs): lower-case character by character. -/
def pyLower (s : String) : String :=
  String.mk (s.data.map Char.toLower)

/-- Equality of exception-or-value results is decidable when both component
types have decidable equality. -/
instance {ε α : Type} [DecidableEq ε] [DecidableEq α] : DecidableEq (Except ε α) :=
  fun a b =>
    match a, b with
    | .ok x, .ok y =>
      if h : x = y then .isTrue (by rw [h]) else .isFalse (by simp [h])
    | .error x, .error y =>
      if h : x = y then .isTrue (by rw [h]) else .isFalse (by simp [h])
    | .ok _, .error _ => .isFalse (by simp)
    | .error _, .ok _ => .isFalse (by simp)

/-- Quoting of one CSV field, per the Python `csv` module with QUOTE_MINIMAL:
a field is quoted iff it contains the delimiter, the quote character, or a
CR/LF, and inner quote characters are doubled. -/
def csvField (delim : Char) (s : String) : String :=
  if s.data.any (fun c => c == delim || c == '"' || c == '\r' || c == '\n') then
    "\"" ++ String.mk (s.data.foldr
      (fun c acc => if c == '"' then '"' :: '"' :: acc else c :: acc) []) ++ "\""
  else s

/-- One physical CSV record: delimiter-joined quoted fields followed by the default
`csv`-module `\r\n` line terminator. A record consisting of a single empty
field is written as a quoted empty string (the `csv` module quotes it to keep
the record distinguishable from an empty one). -/
def csvLine (delim : Char) (fields : List String) : String :=
  (match fields with
   | [s] => if s = "" then "\"\"" else csvField delim s
   | _ => String.intercalate (String.singleton delim) (fields.map (csvField delim)))
  ++ "\r\n"

/-- Embedding of `reports.utils._serialize_rows`: empty input yields an empty
payload; otherwise a `csv.DictWriter` is created with the keys of the first row as
fieldnames, a header row is written, then each row. The cell of a row for a
fieldname is looked up in the row mapping (`None` when absent, per the
writer restval); with the default extrasaction the writer raises `ValueError`
when a row carries a key that is not among the fieldnames, modelled as
`Except.error` (the embedding abstracts the message tail that lists the
offending keys; the buffer is local, so nothing of a partial write is
observable). -/
def serialize_rows (delim : Char) (rows : List Row) : Except String String :=
  match rows with
  | [] => .ok ""
  | first :: _ =>
    let fieldnames := (first : List (String × Val)).map Prod.fst
    if rows.all (fun row =>
        (row : List (String × Val)).all (fun kv => fieldnames.contains kv.1)) then
      .ok (csvLine delim fieldnames ++
        String.join (rows.map (fun row =>
          csvLine delim (fieldnames.map
            (fun k => (((row : List (String × Val)).lookup k).getD Val.null).csvStr)))))
    else
      .error "dict contains fields not in fieldnames"

/-- Rendering of one row in the PDF placeholder:
`", ".join(f"{key}={value}" ...)`. -/
def pdfRowLine (row : Row) : String :=
  String.intercalate ", "
    ((row : List (String × Val)).map (fun kv => kv.1 ++ "=" ++ kv.2.pyStr))

/-- Embedding of `reports.utils._pdf_placeholder`: writes the fixed title line
then one line per row into the buffer. -/
def pdf_placeholder (rows : List Row) : String :=
  rows.foldl (fun acc row => acc ++ (pdfRowLine row ++ "\n"))
    "Campfire Connections Report\n"

/-- Removal of immediately repeated dashes, used by `slugify` to model the
`re.sub(r"[-\s]+", "-", ...)` collapse of dash/whitespace runs. -/
def dedupDash : List Char → List Char
  | [] => []
  | [c] => [c]
  | a :: b :: rest =>
    if a == '-' && b == '-' then dedupDash (b :: rest)
    else a :: dedupDash (b :: rest)

/-- Embedding of `django.utils.text.slugify` on ASCII input: lower-case, drop
characters that are not alphanumeric, underscore, whitespace or dash, collapse
dash/whitespace runs to a single dash, and strip leading/trailing dashes and
underscores. -/
def slugify (s : String) : String :=
  let kept := (pyLower s).data.filter
    (fun c => c.isAlphanum || c == '_' || c.isWhitespace || c == '-')
  let dashed := kept.map (fun c => if c.isWhitespace then '-' else c)
  let collapsed := dedupDash dashed
  let strip := fun c => c == '-' || c == '_'
  String.mk (((collapsed.dropWhile strip).reverse.dropWhile strip).reverse)

/-- Stored report template (`reports.models.ReportTemplate`): the fields the
claims need. `createdBy` / `availableTo` are user ids. -/
structure ReportTemplate where
  name : String
  createdBy : Nat
  availableTo : List Nat
deriving DecidableEq, Repr

/-- Modelled from the spec: `ReportTemplate.is_accessible_by` lives in
`reports/models.py`, which is not among the provided sources (only its tests
and callers are). Per the spec it "returns true iff user equals created_by or
user is a member of available_to; false (never raises) otherwise". -/
def ReportTemplate.is_accessible_by (t : ReportTemplate) (u : Nat) : Bool :=
  u == t.createdBy || t.availableTo.contains u

/-- Result of `django.core.files.base.ContentFile(payload, name=filename)`. -/
structure ContentFile where
  payload : String
  name : String
deriving DecidableEq, Repr

/-- Filters argument to `generate_report_output`, after `json.loads`. Either
not a `dict` (`None`, a list, a scalar, ... — `isinstance(filters, dict)` is
false) or a `dict` whose `.get("rows")` result is modelled: `none` when the
key is absent (or maps to `None`), `some rs` when it maps to a list of rows. -/
inductive FiltersArg
  | nondict
  | dict (rows : Option (List Row))
deriving DecidableEq, Repr

/-- Row-source selection inside `generate_report_output`:
`rows = filters.get("rows") or default_rows` — the Python `or` falls back to the
default row both when the key is absent and when its value is falsy (an empty
list). -/
def select_rows (reportName : String) (filters : FiltersArg) : List Row :=
  let defaultRows : List Row := [[("name", Val.str reportName), ("value", Val.int 1)]]
  match filters with
  | .dict (some rs) => if rs.isEmpty then defaultRows else rs
  | _ => defaultRows

/-- Filename built by `generate_report_output`:
the slugified report name (with fallback literal report when the slug is empty) plus a dot and the extension. -/
def outputFileName (reportName ext : String) : String :=
  (if slugify reportName == "" then "report" else slugify reportName) ++ "." ++ ext

/-- Format normalization inside `generate_report_output`:
`(output_format or "csv").lower()` — a falsy (empty/`None`) format string
defaults to `"csv"` before lower-casing. -/
def effectiveFormat (output_format : String) : String :=
  pyLower (if output_format == "" then "csv" else output_format)

/-- Embedding of `reports.utils.generate_report_output`. The format string is
defaulted to `"csv"` when falsy (`None`/empty, `output_format or "csv"`),
lower-cased, then dispatched; an unknown format raises `ValueError`, modelled
as `Except.error`, and a `ValueError` raised inside `_serialize_rows` (a row
with keys outside the fieldnames) propagates out of the call, modelled by
mapping over its result. -/
def generate_report_output (report : ReportTemplate) (filters : FiltersArg)
    (output_format : String) : Except String ContentFile :=
  let rows := select_rows report.name filters
  let fmt := effectiveFormat output_format
  if fmt == "pdf" then
    .ok ⟨pdf_placeholder rows, outputFileName report.name "pdf"⟩
  else if fmt == "excel" then
    (serialize_rows '\t' rows).map
      (fun payload => ⟨payload, outputFileName report.name "xlsx"⟩)
  else if fmt == "csv" then
    (serialize_rows ',' rows).map
      (fun payload => ⟨payload, outputFileName report.name "csv"⟩)
  else
    .error ("Unsupported format: " ++ fmt)

/-- Truthiness of a Django foreign-key id attribute (`profile.faction_id`):
false for `None` and for the integer `0`, true otherwise. -/
def idTruthy : Option Nat → Bool
  | none => false
  | some n => n != 0

/-- Conversion of an optional related object (identified by its id) to a
filter value; `None` stays `None`. -/
inductive FVal
  | obj (id : Nat)
  | null
deriving DecidableEq, Repr

/-- Filter value of an optional related object. -/
def objVal : Option Nat → FVal
  | some n => FVal.obj n
  | none => FVal.null

/-- Leader profile (`core.utils.get_leader_profile` result): carries the
faction foreign key; the related `faction` object shares the id. -/
structure LeaderProfile where
  factionId : Option Nat
deriving DecidableEq, Repr

/-- Faculty profile (`core.utils.get_faculty_profile` result): carries the
facility foreign key; the related `facility` object shares the id. -/
structure FacultyProfile where
  facilityId : Option Nat
deriving DecidableEq, Repr

/-- Attendee profile (`user.attendeeprofile_profile`): carries the faction
foreign key. -/
structure AttendeeProfile where
  factionId : Option Nat
deriving DecidableEq, Repr

/-- Requesting user, with the flags and profiles read by
`get_user_scope_filters` and `user_can_unscope`. `organization` is the result
of `user.get_profile().organization`, `none` when that lookup raises or the
organization is `None`. The three admin flags model the `core.utils`
predicates `is_leader_admin` / `is_faculty_admin` / `is_department_admin`. -/
structure User where
  isAuthenticated : Bool
  isSuperuser : Bool
  isStaff : Bool
  leaderProfile : Option LeaderProfile
  facultyProfile : Option FacultyProfile
  attendeeProfile : Option AttendeeProfile
  organization : Option Nat
  isLeaderAdmin : Bool
  isFacultyAdmin : Bool
  isDepartmentAdmin : Bool
deriving DecidableEq, Repr

/-- Embedding of `reports.utils.get_user_scope_filters`. The user argument is
`Option User` (`None` or a user object); the result is the filter mapping as
an association list. Each `if` mirrors one early-`return` branch of the
Python function, in order. -/
def get_user_scope_filters (user : Option User) (target : String) :
    List (String × FVal) :=
  match user with
  | none => []
  | some u =>
    if u.isAuthenticated == false then []
    else if u.isSuperuser || u.isStaff then []
    else if (u.leaderProfile.map (fun p => idTruthy p.factionId)).getD false then
      [("faction", objVal (u.leaderProfile.bind LeaderProfile.factionId))]
    else if (u.facultyProfile.map (fun p => idTruthy p.facilityId)).getD false then
      if target == "facility" then
        [("facility", objVal (u.facultyProfile.bind FacultyProfile.facilityId))]
      else
        [("week__facility_enrollment__facility",
          objVal (u.facultyProfile.bind FacultyProfile.facilityId))]
    else if (u.attendeeProfile.map (fun p => idTruthy p.factionId)).getD false then
      [("faction", objVal (u.attendeeProfile.bind AttendeeProfile.factionId))]
    else
      match u.organization with
      | some org =>
        if target == "facility" then [("organization", FVal.obj org)]
        else [("faction__organization", FVal.obj org)]
      | none => []

/-- Embedding of `reports.utils.user_can_unscope`: true iff the user holds any
of the administrative capabilities. `getattr(user, ..., False)` and the
`core.utils` predicates are all false for `None`. -/
def user_can_unscope (user : Option User) : Bool :=
  match user with
  | none => false
  | some u =>
    u.isSuperuser || u.isStaff || u.isLeaderAdmin || u.isFacultyAdmin
      || u.isDepartmentAdmin

/-- One `FactionEnrollment` record, with the related values reachable from
the scope-filter keys that `apply_scope` can produce (each an optional
related-object id). -/
structure Enrollment where
  faction : Option Nat
  weekFacility : Option Nat
  factionOrganization : Option Nat
  facility : Option Nat
  organization : Option Nat
deriving DecidableEq, Repr

/-- Interpretation of one scope-filter key/value pair on a record, as the Django
`qs.filter(**scope_filters)` does: key names the field path, the value is
compared for equality (`None` matches a null relation). -/
def matchesFilter (r : Enrollment) (kv : String × FVal) : Bool :=
  let fieldVal : Option Nat :=
    if kv.1 == "faction" then r.faction
    else if kv.1 == "week__facility_enrollment__facility" then r.weekFacility
    else if kv.1 == "faction__organization" then r.factionOrganization
    else if kv.1 == "facility" then r.facility
    else if kv.1 == "organization" then r.organization
    else none
  match kv.2 with
  | .obj n => fieldVal == some n
  | .null => fieldVal == none

/-- Django `qs.filter(**fs)` on the list model of a queryset: keep the records
matching every filter pair. -/
def filterQs (qs : List Enrollment) (fs : List (String × FVal)) : List Enrollment :=
  qs.filter (fun r => fs.all (matchesFilter r))

/-- Built-in report definition (`reports.report_registry.BaseReport`
subclasses): class attributes the claims need. -/
structure BuiltinReport where
  slug : String
  name : String
  description : String
  allowUnscoped : Bool
  columns : List (String × String)
deriving DecidableEq, Repr

/-- Filters dictionary passed to the builtin-report methods, built by
`BuiltinReportDetailView.get_filters`; `apply_scope` only reads the
`"unscoped"` key, a `Bool` (`params.get("unscoped") == "1"`). -/
structure BuiltinFilters where
  unscoped : Bool
deriving DecidableEq, Repr

/-- Embedding of `reports.report_registry.BaseReport.apply_scope`: returns
the queryset untouched when the report allows unscoped access, the user can
unscope, and the caller requested `unscoped`; otherwise intersects with the
scope filters when they are non-empty. -/
def apply_scope (report : BuiltinReport) (qs : List Enrollment)
    (user : Option User) (filters : BuiltinFilters) : List Enrollment :=
  if report.allowUnscoped && user_can_unscope user && filters.unscoped then qs
  else
    let scopeFilters := get_user_scope_filters user "faction"
    if scopeFilters.isEmpty then qs else filterQs qs scopeFilters

/-- The one registered built-in report,
`reports.report_registry.FactionEnrollmentReport` (`allow_unscoped` keeps the
`BaseReport` default `False`). -/
def FactionEnrollmentReport : BuiltinReport :=
  { slug := "faction-enrollments"
    name := "Faction Enrollments"
    description := "Enrollments by faction, week, and facility with quarters and dates."
    allowUnscoped := false
    columns := [("faction__name", "Faction"),
                ("week__facility_enrollment__facility__name", "Facility"),
                ("week__name", "Week"),
                ("quarters__name", "Quarters"),
                ("start", "Start"),
                ("end", "End")] }

/-- The registry list `reports.report_registry.REPORTS`. -/
def REPORTS : List BuiltinReport := [FactionEnrollmentReport]

/-- Embedding of `reports.report_registry.get_report`: the `for` loop returns
the first registered report whose slug matches, else raises
`Http404("Report not found")`, modelled as `Except.error`. -/
def get_report (slug : String) : Except String BuiltinReport :=
  match REPORTS.find? (fun r => r.slug == slug) with
  | some r => .ok r
  | none => .error "Report not found"

/-- Python object universe traversed by `_get_nested_attr`: a scalar (no
attributes in this universe), an object with named attributes, or a
zero-argument callable returning another object. -/
inductive PyObj
  | scalar (v : Val)
  | object (fields : List (String × PyObj))
  | callable (result : PyObj)

/-- The `if callable(obj): obj = obj()` step after each attribute access:
invoke a callable once, leave anything else unchanged. -/
def callIfCallable : PyObj → PyObj
  | .callable r => r
  | o => o

/-- One `getattr(obj, part)` step: succeeds only on an object carrying the
attribute; a missing attribute is an `AttributeError`, modelled as `none`. -/
def getAttrStep : PyObj → String → Option PyObj
  | .object fields, attrName => fields.lookup attrName
  | _, _ => none

/-- The traversal loop of `_get_nested_attr`: one `getattr` plus callable
unwrap per path segment; the surrounding `try/except AttributeError` makes
any missing attribute yield the default (`none`) for the whole path. -/
def resolvePath : PyObj → List String → Option PyObj
  | o, [] => some o
  | o, p :: rest =>
    match getAttrStep o p with
    | none => none
    | some v => resolvePath (callIfCallable v) rest

/-- Embedding of `reports.utils._get_nested_attr` with the default `None`:
split the path on `"__"` and traverse. -/
def get_nested_attr (obj : PyObj) (attrPath : String) : Option PyObj :=
  resolvePath obj (attrPath.splitOn "__")

/-- Embedding of `reports.utils.queryset_to_rows`: one row per source record,
in order; each row maps the label of each column, in column order, to the resolved
value. -/
def queryset_to_rows (qs : List PyObj) (columns : List (String × String)) :
    List (List (String × Option PyObj)) :=
  qs.map (fun obj => columns.map (fun col => (col.2, get_nested_attr obj col.1)))

/-- Stored `GeneratedReport` record, with the fields `form_valid` sets. -/
structure GeneratedReport where
  name : String
  filtersApplied : FiltersArg
  outputFile : ContentFile
deriving DecidableEq, Repr

/-- Outcome of `json.loads(filters_raw)` in `GenerateReportView.form_valid`:
either the decoded filters value or a `json.JSONDecodeError`. -/
inductive ParseResult
  | ok (filters : FiltersArg)
  | jsonError
deriving DecidableEq, Repr

/-- Embedding of `reports.views.GenerateReportView.form_valid`, as HTTP status
code plus resulting `GeneratedReport` table. A decode failure returns 400
before anything else; then `generate_report_output` runs inside the
`try/except Exception` block, whose failure returns 500; the record is created
(appended) only after output generation succeeded, and then 200 is returned. -/
def form_valid (report : ReportTemplate) (parsed : ParseResult)
    (output_format : String) (db : List GeneratedReport) :
    Nat × List GeneratedReport :=
  match parsed with
  | .jsonError => (400, db)
  | .ok filters =>
    match generate_report_output report filters output_format with
    | .error _ => (500, db)
    | .ok file => (200, db ++ [⟨report.name, filters, file⟩])

/-- Embedding of the response body written by
`reports.views.BuiltinReportExportView.get`: a `csv.DictWriter` over the
column labels of the report writes its header row unconditionally, then one CSV
record per row (tab-delimited when the requested format is `"excel"`). -/
def builtin_report_export (report : BuiltinReport) (rows : List Row)
    (fmt : String) : String :=
  let delim := if pyLower fmt == "excel" then '\t' else ','
  let fieldnames := report.columns.map Prod.snd
  csvLine delim fieldnames ++
    String.join (rows.map (fun row =>
      csvLine delim (fieldnames.map
        (fun k => (((row : List (String × Val)).lookup k).getD Val.null).csvStr))))

/-- Success test for an exception-or-value result. -/
def exceptIsOk {ε α : Type} : Except ε α → Bool
  | .ok _ => true
  | .error _ => false

/-- Concatenation of a list of strings, used to state payload shapes. -/
def concatStrings : List String → String
  | [] => ""
  | s :: rest => s ++ concatStrings rest

/-- Spec-side scope resolution, organization-fallback step (the claim C2 step: fall back to the organization of the user, under the organization key for the facility target and the faction organization key otherwise; empty when none apply). -/
def specOrgFallback (u : User) (target : String) : List (String × FVal) :=
  match u.organization with
  | some org =>
    if target = "facility" then [("organization", FVal.obj org)]
    else [("faction__organization", FVal.obj org)]
  | none => []

/-- Spec-side scope resolution after the faculty step (the claim C2 step: an attendee
with a faction gets a faction restriction, else fall through). -/
def specAfterFaculty (u : User) (target : String) : List (String × FVal) :=
  match u.attendeeProfile with
  | some ap =>
    if idTruthy ap.factionId = true then [("faction", objVal ap.factionId)]
    else specOrgFallback u target
  | none => specOrgFallback u target

/-- Spec-side scope resolution after the leader step (the claim C2 step: a faculty
member with an assigned facility gets a facility restriction, nested unless
the target is facility, else fall through). -/
def specAfterLeader (u : User) (target : String) : List (String × FVal) :=
  match u.facultyProfile with
  | some fp =>
    if idTruthy fp.facilityId = true then
      if target = "facility" then [("facility", objVal fp.facilityId)]
      else [("week__facility_enrollment__facility", objVal fp.facilityId)]
    else specAfterFaculty u target
  | none => specAfterFaculty u target

/-- Spec-side restatement of the claim C2 scope-resolution algorithm, written
from the words of the claim with first-match-wins order: absent or unauthenticated
user gets the empty mapping; any superuser or staff user gets the empty
mapping regardless of profile; a leader with an assigned faction gets the
faction restriction; then the faculty, attendee and organization-fallback
steps; empty when none apply. -/
def scope_filters_per_spec (user : Option User) (target : String) :
    List (String × FVal) :=
  match user with
  | none => []
  | some u =>
    if u.isAuthenticated = false then []
    else if u.isSuperuser = true ∨ u.isStaff = true then []
    else
      match u.leaderProfile with
      | some lp =>
        if idTruthy lp.factionId = true then [("faction", objVal lp.factionId)]
        else specAfterLeader u target
      | none => specAfterLeader u target

/-- C1: for every report template T and every user U, `T.is_accessible_by U`
returns true if and only if U equals T.created_by or U is a member of
T.available_to, and false (it is a total function, so it never raises) in
every other case. -/
theorem c1_is_accessible_by_iff (t : ReportTemplate) (u : Nat) :
    t.is_accessible_by u = true ↔ (u = t.createdBy ∨ u ∈ t.availableTo) := by
  simp [ReportTemplate.is_accessible_by, List.contains]

/-- C2: `get_user_scope_filters` agrees everywhere with the
first-match-wins algorithm of the spec (absent/unauthenticated, superuser/staff, leader
faction, faculty facility with target-dependent key, attendee faction,
organization fallback, empty otherwise), as restated from the claim in
`scope_filters_per_spec`. -/
theorem c2_scope_filters_match_spec (user : Option User) (target : String) :
    get_user_scope_filters user target = scope_filters_per_spec user target := by
  cases user with
  | none => rfl
  | some u =>
    obtain ⟨auth, su, staff, lp, fp, ap, org, la, fa, da⟩ := u
    cases auth <;> cases su <;> cases staff <;>
      cases lp <;> cases fp <;> cases ap <;> cases org <;>
      simp [get_user_scope_filters, scope_filters_per_spec, specAfterLeader,
            specAfterFaculty, specOrgFallback]

/-- C7: `get_report slug` returns a registered report whose slug equals the
requested slug, and fails with the Http404 "Report not found" condition
exactly when no registered report has that slug. -/
theorem c7_get_report_spec (slug : String) :
    (∀ r, get_report slug = .ok r → r ∈ REPORTS ∧ r.slug = slug) ∧
    (get_report slug = .error "Report not found" ↔
      ∀ r ∈ REPORTS, r.slug ≠ slug) := by
  constructor
  · intro r h
    unfold get_report at h
    cases hf : REPORTS.find? (fun r => r.slug == slug) with
    | none => rw [hf] at h; exact absurd h (by simp)
    | some r0 =>
      rw [hf] at h
      cases h
      exact ⟨List.mem_of_find?_eq_some hf, by
        have := List.find?_some hf
        simpa using this⟩
  · unfold get_report
    cases hf : REPORTS.find? (fun r => r.slug == slug) with
    | none =>
      simp only [List.find?_eq_none] at hf
      simpa using hf
    | some r0 =>
      have hmem := List.mem_of_find?_eq_some hf
      have hslug : r0.slug = slug := by have := List.find?_some hf; simpa using this
      simp only []
      constructor
      · intro h; exact absurd h (by simp)
      · intro h; exact absurd hslug (h r0 hmem)

/-- C7 witness: the registered slug resolves to the registered report, and an
unknown slug yields the Http404 condition. -/
theorem c7_get_report_spec_witness :
    (FactionEnrollmentReport ∈ REPORTS ∧
      FactionEnrollmentReport.slug = "faction-enrollments") ∧
    get_report "missing-report" = .error "Report not found" :=
  ⟨(c7_get_report_spec "faction-enrollments").1 FactionEnrollmentReport rfl,
   ((c7_get_report_spec "missing-report").2).mpr (by decide)⟩

/-- C3: `apply_scope` returns the base queryset untouched, without applying
any scope filter, exactly on the branch where the report declares
allow_unscoped, the user holds an administrative capability
(`user_can_unscope`), and the caller filters request the unscoped view; in
every other case the scope filters from `get_user_scope_filters` are applied
when non-empty (and an empty mapping imposes no restriction). -/
theorem c3_apply_scope (report : BuiltinReport) (qs : List Enrollment)
    (user : Option User) (filters : BuiltinFilters) :
    ((report.allowUnscoped && user_can_unscope user && filters.unscoped) = true →
      apply_scope report qs user filters = qs) ∧
    ((report.allowUnscoped && user_can_unscope user && filters.unscoped) = false →
      apply_scope report qs user filters =
        (if (get_user_scope_filters user "faction").isEmpty then qs
         else filterQs qs (get_user_scope_filters user "faction"))) := by
  constructor <;> intro h <;> simp [apply_scope, h]

/-- C3 witness: a superuser with an unscoped request on an unscope-eligible
report bypasses scoping; a leader on a non-eligible report gets the faction
restriction applied. -/
theorem c3_apply_scope_witness :
    apply_scope ⟨"r", "R", "", true, []⟩
        [⟨some 1, none, none, none, none⟩, ⟨some 2, none, none, none, none⟩]
        (some ⟨true, true, false, none, none, none, none, false, false, false⟩)
        ⟨true⟩
      = [⟨some 1, none, none, none, none⟩, ⟨some 2, none, none, none, none⟩] ∧
    apply_scope ⟨"r", "R", "", false, []⟩
        [⟨some 5, none, none, none, none⟩, ⟨some 6, none, none, none, none⟩]
        (some ⟨true, false, false, some ⟨some 5⟩, none, none, none, false, false, false⟩)
        ⟨true⟩
      = [⟨some 5, none, none, none, none⟩] := by
  constructor
  · exact (c3_apply_scope _ _ _ _).1 rfl
  · have h := (c3_apply_scope ⟨"r", "R", "", false, []⟩
      [⟨some 5, none, none, none, none⟩, ⟨some 6, none, none, none, none⟩]
      (some ⟨true, false, false, some ⟨some 5⟩, none, none, none, false, false, false⟩)
      ⟨true⟩).2 rfl
    exact h.trans (by decide)

/-- C4: in the generate-report flow, a JSON decode failure returns the
400-equivalent and creates no `GeneratedReport`; a failure of
`generate_report_output` returns the 500-equivalent and creates no record; a
record is appended exactly when output generation succeeded (with status
200), so a record exists only after successful generation. -/
theorem c4_form_valid (report : ReportTemplate) (parsed : ParseResult)
    (output_format : String) (db : List GeneratedReport) :
    (parsed = .jsonError →
      form_valid report parsed output_format db = (400, db)) ∧
    (∀ filters e, parsed = .ok filters →
      generate_report_output report filters output_format = .error e →
      form_valid report parsed output_format db = (500, db)) ∧
    (∀ filters file, parsed = .ok filters →
      generate_report_output report filters output_format = .ok file →
      form_valid report parsed output_format db
        = (200, db ++ [⟨report.name, filters, file⟩])) ∧
    (∀ st db2, form_valid report parsed output_format db = (st, db2) → db2 ≠ db →
      ∃ filters file, parsed = .ok filters ∧
        generate_report_output report filters output_format = .ok file ∧
        st = 200 ∧ db2 = db ++ [⟨report.name, filters, file⟩]) := by
  refine ⟨fun h => by subst h; rfl, fun filters e hp hg => ?_, fun filters file hp hg => ?_, fun st db2 h hne => ?_⟩
  · subst hp; simp [form_valid, hg]
  · subst hp; simp [form_valid, hg]
  · cases parsed with
    | jsonError =>
      simp only [form_valid] at h
      cases h; exact absurd rfl hne
    | ok filters =>
      cases hg : generate_report_output report filters output_format with
      | error e =>
        simp only [form_valid, hg] at h
        cases h; exact absurd rfl hne
      | ok file =>
        simp only [form_valid, hg] at h
        cases h
        exact ⟨filters, file, rfl, hg, rfl, rfl⟩

/-- C4 witness: concrete instances of all three outcomes (400 on decode
failure with no record, 500 on an unsupported format with no record, 200 with
exactly the one new record) and of the only-after-success direction. -/
theorem c4_form_valid_witness :
    form_valid ⟨"My Report", 0, []⟩ .jsonError "csv" [] = (400, []) ∧
    form_valid ⟨"My Report", 0, []⟩ (.ok .nondict) "markdown" [] = (500, []) ∧
    form_valid ⟨"My Report", 0, []⟩ (.ok .nondict) "csv" []
      = (200, [⟨"My Report", .nondict,
          ⟨"name,value\r\nMy Report,1\r\n", "my-report.csv"⟩⟩]) ∧
    (∃ filters file, ParseResult.ok FiltersArg.nondict = .ok filters ∧
      generate_report_output ⟨"My Report", 0, []⟩ filters "csv" = .ok file ∧
      (200 : Nat) = 200 ∧
      ([⟨"My Report", FiltersArg.nondict,
          ⟨"name,value\r\nMy Report,1\r\n", "my-report.csv"⟩⟩] :
        List GeneratedReport)
        = [] ++ [⟨"My Report", filters, file⟩]) :=
  ⟨(c4_form_valid ⟨"My Report", 0, []⟩ .jsonError "csv" []).1 rfl,
   (c4_form_valid ⟨"My Report", 0, []⟩ (.ok .nondict) "markdown" []).2.1
     FiltersArg.nondict "Unsupported format: markdown" rfl rfl,
   (c4_form_valid ⟨"My Report", 0, []⟩ (.ok .nondict) "csv" []).2.2.1
     FiltersArg.nondict ⟨"name,value\r\nMy Report,1\r\n", "my-report.csv"⟩ rfl rfl,
   (c4_form_valid ⟨"My Report", 0, []⟩ (.ok .nondict) "csv" []).2.2.2
     200 [⟨"My Report", FiltersArg.nondict,
       ⟨"name,value\r\nMy Report,1\r\n", "my-report.csv"⟩⟩] rfl
     (List.cons_ne_nil _ _)⟩

/-- C5 counterexample: with filters a mapping whose rows entry is the empty
sequence, `generate_report_output` does not use that entry (the claim would
then require an empty CSV payload with no header); the Python expression
`filters.get("rows") or default_rows` treats the empty list as falsy, so the
default row is serialized and the payload is a non-empty CSV with a header
line. -/
theorem c5_counterexample :
    generate_report_output ⟨"My Report", 0, []⟩ (.dict (some [])) "csv"
      = .ok ⟨"name,value\r\nMy Report,1\r\n", "my-report.csv"⟩ ∧
    "name,value\r\nMy Report,1\r\n" ≠ "" := by
  exact ⟨rfl, by decide⟩

/-- C5 (amended): in `generate_report_output`, a non-empty "rows" entry of a
filters mapping is used as the row sequence; an absent "rows" entry, an empty
"rows" entry, or a non-mapping filters value all fall back to the single
default row (name = report.name, value = 1), so an empty "rows" entry
produces the CSV of the default row (with header), not an empty payload. -/
theorem c5_row_source (report : ReportTemplate) (rows : List Row) :
    (rows ≠ [] → select_rows report.name (.dict (some rows)) = rows) ∧
    select_rows report.name (.dict (some []))
      = [[("name", Val.str report.name), ("value", Val.int 1)]] ∧
    select_rows report.name (.dict none)
      = [[("name", Val.str report.name), ("value", Val.int 1)]] ∧
    select_rows report.name .nondict
      = [[("name", Val.str report.name), ("value", Val.int 1)]] ∧
    generate_report_output report (.dict (some [])) "csv"
      = (serialize_rows ','
            [[("name", Val.str report.name), ("value", Val.int 1)]]).map
          (fun payload => ContentFile.mk payload (outputFileName report.name "csv")) := by
  refine ⟨fun h => ?_, rfl, rfl, rfl, rfl⟩
  cases rows with
  | nil => exact absurd rfl h
  | cons a l => rfl

/-- C5 witness: a concrete non-empty "rows" entry is used as given. -/
theorem c5_row_source_witness :
    select_rows "My Report" (FiltersArg.dict (some [[("a", Val.int 2)]]))
      = [[("a", Val.int 2)]] :=
  (c5_row_source ⟨"My Report", 0, []⟩ [[("a", Val.int 2)]]).1 (by decide)

/-- C6 counterexample: the empty format string is not (even case-insensitively)
"csv", "excel" or "pdf", yet `generate_report_output` does not raise on it —
`output_format or "csv"` defaults a falsy format to "csv" — so the claim sentence
"for any other format value it raises a value error" fails at the empty
string. -/
theorem c6_counterexample :
    generate_report_output ⟨"My Report", 0, []⟩ .nondict ""
      = .ok ⟨"name,value\r\nMy Report,1\r\n", "my-report.csv"⟩ ∧
    ("" : String) ≠ "csv" ∧ ("" : String) ≠ "excel" ∧ ("" : String) ≠ "pdf" := by
  exact ⟨rfl, by decide, by decide, by decide⟩

/-- C6 (amended): `generate_report_output` first defaults a falsy
(empty/absent) format to "csv", then dispatches case-insensitively,
recognizing exactly "csv", "excel" and "pdf"; for any other (non-empty)
format value it raises a value error and produces no artifact. A recognized
format produces an artifact exactly when the encoder does not itself raise:
"pdf" always succeeds, while "csv" and "excel" forward the result of
`_serialize_rows`, which raises a `ValueError` when some row carries a key
outside the fieldnames of the first row. -/
theorem c6_format_dispatch (report : ReportTemplate) (filters : FiltersArg)
    (output_format : String) :
    (output_format = "" →
      generate_report_output report filters output_format
        = generate_report_output report filters "csv") ∧
    (effectiveFormat output_format = "csv" →
      generate_report_output report filters output_format
        = (serialize_rows ',' (select_rows report.name filters)).map
            (fun payload =>
              ContentFile.mk payload (outputFileName report.name "csv"))) ∧
    (effectiveFormat output_format = "excel" →
      generate_report_output report filters output_format
        = (serialize_rows '\t' (select_rows report.name filters)).map
            (fun payload =>
              ContentFile.mk payload (outputFileName report.name "xlsx"))) ∧
    (effectiveFormat output_format = "pdf" →
      exceptIsOk (generate_report_output report filters output_format) = true) ∧
    (effectiveFormat output_format ≠ "csv" → effectiveFormat output_format ≠ "excel" →
      effectiveFormat output_format ≠ "pdf" →
      generate_report_output report filters output_format
        = .error ("Unsupported format: " ++ effectiveFormat output_format)) := by
  refine ⟨fun h => by subst h; rfl, fun h => ?_, fun h => ?_, fun h => ?_,
    fun h1 h2 h3 => ?_⟩
  · unfold generate_report_output
    simp [h]
  · unfold generate_report_output
    simp [h]
  · unfold generate_report_output exceptIsOk
    simp [h]
  · unfold generate_report_output
    simp [h1, h2, h3]

/-- C6 witness: the empty format behaves as "csv"; "CSV" is accepted
case-insensitively and yields the default-row artifact; a rows entry whose
second row carries a key outside the keys of the first row makes "csv"
propagate the serializer ValueError; "PDF" always succeeds; "markdown" raises
the unsupported-format error. -/
theorem c6_format_dispatch_witness :
    generate_report_output ⟨"My Report", 0, []⟩ .nondict ""
      = generate_report_output ⟨"My Report", 0, []⟩ .nondict "csv" ∧
    generate_report_output ⟨"My Report", 0, []⟩ .nondict "CSV"
      = .ok ⟨"name,value\r\nMy Report,1\r\n", "my-report.csv"⟩ ∧
    generate_report_output ⟨"My Report", 0, []⟩
        (.dict (some [[("a", Val.int 1)], [("b", Val.int 2)]])) "csv"
      = .error "dict contains fields not in fieldnames" ∧
    exceptIsOk (generate_report_output ⟨"My Report", 0, []⟩ .nondict "PDF") = true ∧
    generate_report_output ⟨"My Report", 0, []⟩ .nondict "markdown"
      = .error ("Unsupported format: " ++ effectiveFormat "markdown") :=
  ⟨(c6_format_dispatch ⟨"My Report", 0, []⟩ .nondict "").1 rfl,
   ((c6_format_dispatch ⟨"My Report", 0, []⟩ .nondict "CSV").2.1 (by decide)).trans
     rfl,
   ((c6_format_dispatch ⟨"My Report", 0, []⟩
       (.dict (some [[("a", Val.int 1)], [("b", Val.int 2)]])) "csv").2.1
     (by decide)).trans rfl,
   (c6_format_dispatch ⟨"My Report", 0, []⟩ .nondict "PDF").2.2.2.1 (by decide),
   (c6_format_dispatch ⟨"My Report", 0, []⟩ .nondict "markdown").2.2.2.2
     (by decide) (by decide) (by decide)⟩

/-- Auxiliary: the buffer-accumulating fold of `pdf_placeholder` equals the
initial buffer contents followed by the concatenation of the rendered
lines. -/
theorem pdfFoldAppend (rows : List Row) (init : String) :
    rows.foldl (fun acc row => acc ++ (pdfRowLine row ++ "\n")) init
      = init ++ concatStrings (rows.map (fun row => pdfRowLine row ++ "\n")) := by
  induction rows generalizing init with
  | nil => simp [concatStrings]
  | cons r rs ih => simp [concatStrings, ih, String.append_assoc]

/-- C8: `queryset_to_rows` yields exactly one row per source record,
preserving source order; each row lists the column labels in definition
order, each mapped to the value of the dotted-path traversal; the traversal
splits the field path on the `"__"` separator, steps by attribute access
invoking zero-argument callables along the way, and yields `None` for the
whole column as soon as an attribute is missing. -/
theorem c8_queryset_to_rows (qs : List PyObj) (columns : List (String × String)) :
    (queryset_to_rows qs columns).length = qs.length ∧
    (∀ i : Nat, (queryset_to_rows qs columns)[i]?
        = (qs[i]?).map (fun obj => columns.map
            (fun col => (col.2, get_nested_attr obj col.1)))) ∧
    (∀ obj attrPath, get_nested_attr obj attrPath
        = resolvePath obj (attrPath.splitOn "__")) ∧
    (∀ obj p rest, getAttrStep obj p = none → resolvePath obj (p :: rest) = none) ∧
    (∀ obj p rest v, getAttrStep obj p = some v →
      resolvePath obj (p :: rest) = resolvePath (callIfCallable v) rest) := by
  refine ⟨by simp [queryset_to_rows], fun i => by simp [queryset_to_rows],
    fun o a => rfl,
    fun o p rest h => by simp [resolvePath, h],
    fun o p rest v h => by simp [resolvePath, h]⟩

/-- C8 witness: a missing attribute resolves to `None`, and a zero-argument
callable met along the path is invoked before the traversal continues. -/
theorem c8_queryset_to_rows_witness :
    resolvePath (PyObj.scalar Val.null) ("missing" :: []) = none ∧
    resolvePath (PyObj.object [("f", PyObj.callable (PyObj.scalar (Val.int 7)))])
        ("f" :: []) = resolvePath (PyObj.scalar (Val.int 7)) [] :=
  ⟨(c8_queryset_to_rows [] []).2.2.2.1 (PyObj.scalar Val.null) "missing" [] rfl,
   (c8_queryset_to_rows [] []).2.2.2.2
     (PyObj.object [("f", PyObj.callable (PyObj.scalar (Val.int 7)))]) "f" []
     (PyObj.callable (PyObj.scalar (Val.int 7))) rfl⟩

/-- C9: for every filters value (hence every reachable row sequence),
generating with format "pdf" succeeds and produces a payload equal to the
literal title line "Campfire Connections Report" followed by one line per
row, each rendered as comma-joined key=value pairs. -/
theorem c9_pdf_payload (report : ReportTemplate) (filters : FiltersArg) :
    generate_report_output report filters "pdf"
      = .ok ⟨"Campfire Connections Report\n"
              ++ concatStrings ((select_rows report.name filters).map
                    (fun row => pdfRowLine row ++ "\n")),
             outputFileName report.name "pdf"⟩ := by
  have hfmt : effectiveFormat "pdf" = "pdf" := by decide
  simp only [generate_report_output, hfmt, beq_self_eq_true, if_true,
    pdf_placeholder]
  rw [pdfFoldAppend]

/-- Auxiliary: a CSV record line is never the empty string (it always carries
its `\r\n` terminator). -/
theorem csvLine_ne_empty (delim : Char) (fields : List String) :
    csvLine delim fields ≠ "" := by
  unfold csvLine
  intro h
  have h2 := congrArg String.length h
  simp [String.length_append] at h2
  exact absurd h2.2 (by decide)

/-- C10: the builtin export response body always starts with the header row
built from the column labels of the report; with an empty row sequence the body is
exactly that (non-empty) header line — unlike `_serialize_rows`, which yields
an empty payload with no header for an empty row sequence. -/
theorem c10_export_header (report : BuiltinReport) (rows : List Row)
    (fmt : String) :
    (∃ rest, builtin_report_export report rows fmt
        = csvLine (if pyLower fmt == "excel" then '\t' else ',')
            (report.columns.map Prod.snd) ++ rest) ∧
    builtin_report_export report [] fmt
      = csvLine (if pyLower fmt == "excel" then '\t' else ',')
          (report.columns.map Prod.snd) ∧
    builtin_report_export report [] fmt ≠ "" ∧
    serialize_rows (if pyLower fmt == "excel" then '\t' else ',') [] = .ok "" := by
  refine ⟨⟨_, rfl⟩, ?_, ?_, rfl⟩
  · simp [builtin_report_export, String.join]
  · intro h
    rw [show builtin_report_export report [] fmt
        = csvLine (if pyLower fmt == "excel" then '\t' else ',')
            (report.columns.map Prod.snd) from by
      simp [builtin_report_export, String.join]] at h
    exact csvLine_ne_empty _ _ h

end Reports
